import Mathlib

/-!
Verification of the burn-severity raster pipeline in
`burn_classifier/local_analysis.py`.

Rasters are embedded as `List (List _)` grids. A dNBR / NBR pixel is an
`Option ℚ`: `none` models a NaN / no-data sample (every ordered comparison
against it is false, as in NumPy), `some x` a finite value. Classified
rasters are grids of `ℕ` (the code stores them as uint8; every class the
classifier emits is ≤ 7). Python's `round(x, 2)` is modelled exactly on ℚ
as round-half-to-even at two decimals.
-/

namespace BurnClassifier

/-- One NumPy comparison `v <= t` where `v` may be NaN (`none`):
NaN compares false. -/
def cmpLE (v : Option ℚ) (t : ℚ) : Bool :=
  match v with
  | none => false
  | some x => decide (x ≤ t)

/-- One NumPy comparison `v > t` where `v` may be NaN (`none`):
NaN compares false. -/
def cmpGT (v : Option ℚ) (t : ℚ) : Bool :=
  match v with
  | none => false
  | some x => decide (t < x)

/-- `np.select`: the choice of the first true condition, `d` if none is true. -/
def npSelect : List Bool → List ℕ → ℕ → ℕ
  | true :: _, c :: _, _ => c
  | false :: bs, _ :: cs, d => npSelect bs cs d
  | _, _, d => d

/-- The seven boolean conditions of `classify_severity`, in source order. -/
def severityConditions (v : Option ℚ) : List Bool :=
  [ cmpLE v (-251/1000),
    cmpGT v (-251/1000) && cmpLE v (-101/1000),
    cmpGT v (-101/1000) && cmpLE v (100/1000),
    cmpGT v (100/1000) && cmpLE v (270/1000),
    cmpGT v (270/1000) && cmpLE v (440/1000),
    cmpGT v (440/1000) && cmpLE v (660/1000),
    cmpGT v (660/1000) ]

/-- Per-pixel body of `classify_severity`:
`np.select(conditions, [1..7], default=0)`. -/
def classify_severity_pixel (v : Option ℚ) : ℕ :=
  npSelect (severityConditions v) [1, 2, 3, 4, 5, 6, 7] 0

/-- Modelled from the spec: the seven-row severity table of §4.3, written
with the spec's two-sided interval conditions, 0 when no row matches. -/
def severityTableSpec (v : ℚ) : ℕ :=
  if v ≤ -251/1000 then 1
  else if -251/1000 < v ∧ v ≤ -101/1000 then 2
  else if -101/1000 < v ∧ v ≤ 100/1000 then 3
  else if 100/1000 < v ∧ v ≤ 270/1000 then 4
  else if 270/1000 < v ∧ v ≤ 440/1000 then 5
  else if 440/1000 < v ∧ v ≤ 660/1000 then 6
  else if 660/1000 < v then 7
  else 0

/-- The six cut points of the classifier, in increasing order. -/
def severityThresholds : List ℚ :=
  [-251/1000, -101/1000, 100/1000, 270/1000, 440/1000, 660/1000]

/-! ### Rasters and `calculate_dnbr` -/

/-- The row-length profile of a 2-D array; two NumPy arrays have equal
`.shape` exactly when their profiles agree. -/
def shape2 {α : Type} (a : List (List α)) : List ℕ :=
  a.map List.length

/-- Pixel at row `i`, column `j`, when both indices are in range. -/
def get2 {α : Type} (a : List (List α)) (i j : ℕ) : Option α :=
  (a[i]?).bind fun r => r[j]?

/-- Errors the pipeline can surface: the precondition violation raised by
`calculate_dnbr` (`ValueError("Image size mismatch.")`) versus I/O failures
propagated from `rasterio`. -/
inductive PipelineError : Type
  | shapeMismatch (msg : String)
  | ioFailure (msg : String)
deriving DecidableEq, Repr

/-- `np.nan_to_num(x, nan=0.0)` on one pixel. -/
def nan_to_num (x : Option ℚ) : ℚ :=
  x.getD 0

/-- Core of `calculate_dnbr`: the shape check followed by
`np.nan_to_num(pre, nan=0.0) - np.nan_to_num(post, nan=0.0)`. The `.ok`
payload is the dNBR array written to the output file; on `.error` the
function raises before opening the output, so no output file exists. -/
def calculate_dnbr (pre post : List (List (Option ℚ))) :
    Except PipelineError (List (List ℚ)) :=
  if shape2 pre = shape2 post then
    .ok (List.zipWith (fun r s =>
      List.zipWith (fun a b => nan_to_num a - nan_to_num b) r s) pre post)
  else
    .error (.shapeMismatch "Image size mismatch.")

/-! ### `classify_severity` over a whole raster -/

/-- The raster metadata `classify_severity` carries along: the `profile`
read from the source file, of which the function overwrites `dtype`,
`count` and `compress` before writing. -/
structure Profile where
  transform : List ℚ
  crs : String
  dtype : String
  count : ℕ
  compress : String
deriving DecidableEq, Repr

/-- `classify_severity` on the in-memory data: classify every pixel with
`np.select`, and update the profile with `dtype=uint8, count=1,
compress=lzw`. The first component is the array written to the output. -/
def classify_severity_raster (a : List (List (Option ℚ))) (p : Profile) :
    List (List ℕ) × Profile :=
  (a.map (fun row => row.map classify_severity_pixel),
   { p with dtype := "uint8", count := 1, compress := "lzw" })

/-! ### `calculate_area` -/

/-- Python's `round` to an integer: round half to even. -/
def roundHalfEven (x : ℚ) : ℤ :=
  if x - ⌊x⌋ = 1/2 then
    (if ⌊x⌋ % 2 = 0 then ⌊x⌋ else ⌊x⌋ + 1)
  else round x

/-- Python's `round(x, 2)`. -/
def pyRound2 (x : ℚ) : ℚ :=
  (roundHalfEven (x * 100) : ℚ) / 100

/-- One value of the per-class dictionary built by `calculate_area`. -/
structure ClassArea where
  class_id : ℕ
  area_hectares : ℚ
deriving DecidableEq, Repr

/-- The value returned by `calculate_area`: the per-class entries, in the
order they are inserted, plus the `Total_Analyzed_Area` figure. -/
structure AreaReport where
  entries : List (String × ClassArea)
  total_area_hectares : ℚ
deriving DecidableEq, Repr

/-- The `class_labels` dictionary of `calculate_area`. -/
def class_labels : List (ℕ × String) :=
  [(1, "Enhanced Regrowth, High"),
   (2, "Enhanced Regrowth, Moderate"),
   (3, "Unburned"),
   (4, "Low-Severity Burn"),
   (5, "Moderate-Severity Burn"),
   (6, "High-Severity Burn"),
   (7, "Extreme-Severity Burn")]

/-- Number of pixels of the array holding class value `c`. -/
def countClass (a : List (List ℕ)) (c : ℕ) : ℕ :=
  a.flatten.count c

/-- `np.unique` on a uint8 classified array: the sorted list of values that
occur, i.e. the values of `0..255` with a positive count. -/
def uniqueValues (a : List (List ℕ)) : List ℕ :=
  (List.range 256).filter fun v => decide (0 < countClass a v)

/-- The class values that produce an entry in the loop of `calculate_area`:
occurring values whose key is in `class_labels` (this drops class 0 and any
other unlabeled value). -/
def keptClasses (a : List (List ℕ)) : List ℕ :=
  (uniqueValues a).filter fun v => (List.lookup v class_labels).isSome

/-- `calculate_area` on the in-memory data: `a` is the classified array read
from the file, `ta` and `te` the `a` and `e` coefficients of the transform
obtained from `calculate_default_transform(src.crs, EPSG:3857, ...)`, so
`ta * |te|` is the per-pixel area (m²) of the reprojected grid. Per-class
pixel counts come from the original array; classes without a label entry
(class 0) are skipped and excluded from the total, which is rounded once
from the unrounded square-meter sum. -/
def calculate_area (a : List (List ℕ)) (ta te : ℚ) : AreaReport :=
  { entries := (keptClasses a).map fun v =>
      ((List.lookup v class_labels).getD "",
       { class_id := v,
         area_hectares := pyRound2 ((countClass a v : ℚ) * (ta * |te|) / 10000) }),
    total_area_hectares :=
      pyRound2 (((keptClasses a).map fun v =>
        (countClass a v : ℚ) * (ta * |te|)).sum / 10000) }

/-- Sum of the per-class `area_hectares` figures of a report. -/
def sumEntryAreas (r : AreaReport) : ℚ :=
  (r.entries.map fun e => e.2.area_hectares).sum

/-! ### Helper lemmas: the classifier -/

theorem classify_master (v : ℚ) :
    classify_severity_pixel (some v) = severityTableSpec v ∧
    (severityConditions (some v)).count true = 1 := by
  unfold classify_severity_pixel severityConditions severityTableSpec cmpLE cmpGT
  rcases le_or_lt v (-251/1000) with h1 | h1
  · have d1 : ¬ ((-251/1000 : ℚ) < v) := not_lt.mpr h1
    have d2 : ¬ ((-101/1000 : ℚ) < v) := by intro h; linarith
    have d3 : ¬ ((100/1000 : ℚ) < v) := by intro h; linarith
    have d4 : ¬ ((270/1000 : ℚ) < v) := by intro h; linarith
    have d5 : ¬ ((440/1000 : ℚ) < v) := by intro h; linarith
    have d6 : ¬ ((660/1000 : ℚ) < v) := by intro h; linarith
    simp [npSelect, h1, d1, d2, d3, d4, d5, d6, List.count_cons]
  rcases le_or_lt v (-101/1000) with h2 | h2
  · have a1 : ¬ (v ≤ -251/1000) := not_le.mpr h1
    have d2 : ¬ ((-101/1000 : ℚ) < v) := not_lt.mpr h2
    have d3 : ¬ ((100/1000 : ℚ) < v) := by intro h; linarith
    have d4 : ¬ ((270/1000 : ℚ) < v) := by intro h; linarith
    have d5 : ¬ ((440/1000 : ℚ) < v) := by intro h; linarith
    have d6 : ¬ ((660/1000 : ℚ) < v) := by intro h; linarith
    simp [npSelect, h1, h2, a1, d2, d3, d4, d5, d6, List.count_cons]
  rcases le_or_lt v (100/1000) with h3 | h3
  · have a1 : ¬ (v ≤ -251/1000) := by intro h; linarith
    have a2 : ¬ (v ≤ -101/1000) := not_le.mpr h2
    have d3 : ¬ ((100/1000 : ℚ) < v) := not_lt.mpr h3
    have d4 : ¬ ((270/1000 : ℚ) < v) := by intro h; linarith
    have d5 : ¬ ((440/1000 : ℚ) < v) := by intro h; linarith
    have d6 : ¬ ((660/1000 : ℚ) < v) := by intro h; linarith
    simp [npSelect, h2, h3, a1, a2, d3, d4, d5, d6, List.count_cons]
  rcases le_or_lt v (270/1000) with h4 | h4
  · have a1 : ¬ (v ≤ -251/1000) := by intro h; linarith
    have a2 : ¬ (v ≤ -101/1000) := by intro h; linarith
    have a3 : ¬ (v ≤ 100/1000) := not_le.mpr h3
    have d4 : ¬ ((270/1000 : ℚ) < v) := not_lt.mpr h4
    have d5 : ¬ ((440/1000 : ℚ) < v) := by intro h; linarith
    have d6 : ¬ ((660/1000 : ℚ) < v) := by intro h; linarith
    simp [npSelect, h3, h4, a1, a2, a3, d4, d5, d6, List.count_cons]
  rcases le_or_lt v (440/1000) with h5 | h5
  · have a1 : ¬ (v ≤ -251/1000) := by intro h; linarith
    have a2 : ¬ (v ≤ -101/1000) := by intro h; linarith
    have a3 : ¬ (v ≤ 100/1000) := by intro h; linarith
    have a4 : ¬ (v ≤ 270/1000) := not_le.mpr h4
    have d5 : ¬ ((440/1000 : ℚ) < v) := not_lt.mpr h5
    have d6 : ¬ ((660/1000 : ℚ) < v) := by intro h; linarith
    simp [npSelect, h4, h5, a1, a2, a3, a4, d5, d6, List.count_cons]
  rcases le_or_lt v (660/1000) with h6 | h6
  · have a1 : ¬ (v ≤ -251/1000) := by intro h; linarith
    have a2 : ¬ (v ≤ -101/1000) := by intro h; linarith
    have a3 : ¬ (v ≤ 100/1000) := by intro h; linarith
    have a4 : ¬ (v ≤ 270/1000) := by intro h; linarith
    have a5 : ¬ (v ≤ 440/1000) := not_le.mpr h5
    have d6 : ¬ ((660/1000 : ℚ) < v) := not_lt.mpr h6
    simp [npSelect, h5, h6, a1, a2, a3, a4, a5, d6, List.count_cons]
  · have a1 : ¬ (v ≤ -251/1000) := by intro h; linarith
    have a2 : ¬ (v ≤ -101/1000) := by intro h; linarith
    have a3 : ¬ (v ≤ 100/1000) := by intro h; linarith
    have a4 : ¬ (v ≤ 270/1000) := by intro h; linarith
    have a5 : ¬ (v ≤ 440/1000) := by intro h; linarith
    have a6 : ¬ (v ≤ 660/1000) := not_le.mpr h6
    simp [npSelect, h6, a1, a2, a3, a4, a5, a6, List.count_cons]

theorem classify_eq_table (v : ℚ) :
    classify_severity_pixel (some v) = severityTableSpec v :=
  (classify_master v).1

theorem severityConditions_count_one (v : ℚ) :
    (severityConditions (some v)).count true = 1 :=
  (classify_master v).2

theorem table_eq_one_add_countLT (v : ℚ) :
    severityTableSpec v =
      1 + ((severityThresholds.filter fun t => decide (t < v)).length) := by
  unfold severityTableSpec severityThresholds
  rcases le_or_lt v (-251/1000) with h1 | h1
  · have d1 : ¬ ((-251/1000 : ℚ) < v) := not_lt.mpr h1
    have d2 : ¬ ((-101/1000 : ℚ) < v) := by intro h; linarith
    have d3 : ¬ ((100/1000 : ℚ) < v) := by intro h; linarith
    have d4 : ¬ ((270/1000 : ℚ) < v) := by intro h; linarith
    have d5 : ¬ ((440/1000 : ℚ) < v) := by intro h; linarith
    have d6 : ¬ ((660/1000 : ℚ) < v) := by intro h; linarith
    simp [h1, d1, d2, d3, d4, d5, d6, List.filter]
  rcases le_or_lt v (-101/1000) with h2 | h2
  · have a1 : ¬ (v ≤ -251/1000) := not_le.mpr h1
    have d2 : ¬ ((-101/1000 : ℚ) < v) := not_lt.mpr h2
    have d3 : ¬ ((100/1000 : ℚ) < v) := by intro h; linarith
    have d4 : ¬ ((270/1000 : ℚ) < v) := by intro h; linarith
    have d5 : ¬ ((440/1000 : ℚ) < v) := by intro h; linarith
    have d6 : ¬ ((660/1000 : ℚ) < v) := by intro h; linarith
    simp [h1, h2, a1, d2, d3, d4, d5, d6, List.filter]
  rcases le_or_lt v (100/1000) with h3 | h3
  · have a1 : ¬ (v ≤ -251/1000) := by intro h; linarith
    have b1 : (-251/1000 : ℚ) < v := by linarith
    have a2 : ¬ (v ≤ -101/1000) := not_le.mpr h2
    have d3 : ¬ ((100/1000 : ℚ) < v) := not_lt.mpr h3
    have d4 : ¬ ((270/1000 : ℚ) < v) := by intro h; linarith
    have d5 : ¬ ((440/1000 : ℚ) < v) := by intro h; linarith
    have d6 : ¬ ((660/1000 : ℚ) < v) := by intro h; linarith
    simp [h2, h3, a1, a2, b1, d3, d4, d5, d6, List.filter]
  rcases le_or_lt v (270/1000) with h4 | h4
  · have a1 : ¬ (v ≤ -251/1000) := by intro h; linarith
    have b1 : (-251/1000 : ℚ) < v := by linarith
    have b2 : (-101/1000 : ℚ) < v := by linarith
    have a2 : ¬ (v ≤ -101/1000) := by intro h; linarith
    have a3 : ¬ (v ≤ 100/1000) := not_le.mpr h3
    have d4 : ¬ ((270/1000 : ℚ) < v) := not_lt.mpr h4
    have d5 : ¬ ((440/1000 : ℚ) < v) := by intro h; linarith
    have d6 : ¬ ((660/1000 : ℚ) < v) := by intro h; linarith
    simp [h3, h4, a1, a2, a3, b1, b2, d4, d5, d6, List.filter]
  rcases le_or_lt v (440/1000) with h5 | h5
  · have a1 : ¬ (v ≤ -251/1000) := by intro h; linarith
    have b1 : (-251/1000 : ℚ) < v := by linarith
    have b2 : (-101/1000 : ℚ) < v := by linarith
    have b3 : (100/1000 : ℚ) < v := by linarith
    have a2 : ¬ (v ≤ -101/1000) := by intro h; linarith
    have a3 : ¬ (v ≤ 100/1000) := by intro h; linarith
    have a4 : ¬ (v ≤ 270/1000) := not_le.mpr h4
    have d5 : ¬ ((440/1000 : ℚ) < v) := not_lt.mpr h5
    have d6 : ¬ ((660/1000 : ℚ) < v) := by intro h; linarith
    simp [h4, h5, a1, a2, a3, a4, b1, b2, b3, d5, d6, List.filter]
  rcases le_or_lt v (660/1000) with h6 | h6
  · have a1 : ¬ (v ≤ -251/1000) := by intro h; linarith
    have b1 : (-251/1000 : ℚ) < v := by linarith
    have b2 : (-101/1000 : ℚ) < v := by linarith
    have b3 : (100/1000 : ℚ) < v := by linarith
    have b4 : (270/1000 : ℚ) < v := by linarith
    have a2 : ¬ (v ≤ -101/1000) := by intro h; linarith
    have a3 : ¬ (v ≤ 100/1000) := by intro h; linarith
    have a4 : ¬ (v ≤ 270/1000) := by intro h; linarith
    have a5 : ¬ (v ≤ 440/1000) := not_le.mpr h5
    have d6 : ¬ ((660/1000 : ℚ) < v) := not_lt.mpr h6
    simp [h5, h6, a1, a2, a3, a4, a5, b1, b2, b3, b4, d6, List.filter]
  · have a1 : ¬ (v ≤ -251/1000) := by intro h; linarith
    have b1 : (-251/1000 : ℚ) < v := by linarith
    have b2 : (-101/1000 : ℚ) < v := by linarith
    have b3 : (100/1000 : ℚ) < v := by linarith
    have b4 : (270/1000 : ℚ) < v := by linarith
    have b5 : (440/1000 : ℚ) < v := by linarith
    have a2 : ¬ (v ≤ -101/1000) := by intro h; linarith
    have a3 : ¬ (v ≤ 100/1000) := by intro h; linarith
    have a4 : ¬ (v ≤ 270/1000) := by intro h; linarith
    have a5 : ¬ (v ≤ 440/1000) := by intro h; linarith
    have a6 : ¬ (v ≤ 660/1000) := not_le.mpr h6
    simp [h6, a1, a2, a3, a4, a5, a6, b1, b2, b3, b4, b5, List.filter]

theorem classify_pixel_le_seven (v : Option ℚ) :
    classify_severity_pixel v ≤ 7 := by
  cases v with
  | none => decide
  | some x =>
    rw [classify_eq_table]
    unfold severityTableSpec
    split_ifs <;> norm_num

/-! ### Helper lemmas: `calculate_dnbr` -/

theorem get2_zipWith {α β γ : Type} (f : α → β → γ) (as : List (List α))
    (bs : List (List β)) (i j : ℕ) (a : α) (b : β)
    (ha : get2 as i j = some a) (hb : get2 bs i j = some b) :
    get2 (List.zipWith (fun r s => List.zipWith f r s) as bs) i j =
      some (f a b) := by
  unfold get2 at *
  cases hr : as[i]? with
  | none => rw [hr] at ha; exact Option.noConfusion ha
  | some r =>
    cases hs : bs[i]? with
    | none => rw [hs] at hb; exact Option.noConfusion hb
    | some s =>
      rw [hr] at ha; rw [hs] at hb
      simp only [Option.some_bind] at ha hb
      rw [List.getElem?_zipWith, hr, hs]
      show (List.zipWith f r s)[j]? = some (f a b)
      rw [List.getElem?_zipWith, ha, hb]

theorem calculate_dnbr_ok_eq (pre post : List (List (Option ℚ)))
    (out : List (List ℚ)) (hok : calculate_dnbr pre post = .ok out) :
    out = List.zipWith (fun r s =>
      List.zipWith (fun a b => nan_to_num a - nan_to_num b) r s) pre post := by
  unfold calculate_dnbr at hok
  by_cases h : shape2 pre = shape2 post
  · rw [if_pos h] at hok
    cases hok
    rfl
  · rw [if_neg h] at hok
    exact Except.noConfusion hok

theorem mem_zipWith {α β γ : Type} {f : α → β → γ} :
    ∀ (as : List α) (bs : List β) (c : γ), c ∈ List.zipWith f as bs →
      ∃ a ∈ as, ∃ b ∈ bs, c = f a b
  | a :: as, b :: bs, c, h => by
    rw [List.zipWith_cons_cons] at h
    rcases List.mem_cons.mp h with h | h
    · exact ⟨a, List.mem_cons_self a as, b, List.mem_cons_self b bs, h⟩
    · obtain ⟨a', ha', b', hb', rfl⟩ := mem_zipWith as bs c h
      exact ⟨a', List.mem_cons_of_mem _ ha', b', List.mem_cons_of_mem _ hb', rfl⟩
  | [], _, c, h => by simp at h
  | _ :: _, [], c, h => by simp at h

theorem severityTableSpec_mono {v1 v2 : ℚ} (h : v1 ≤ v2) :
    severityTableSpec v1 ≤ severityTableSpec v2 := by
  rw [table_eq_one_add_countLT, table_eq_one_add_countLT]
  have hsub : ((severityThresholds.filter fun t => decide (t < v1))).Sublist
      ((severityThresholds.filter fun t => decide (t < v2))) := by
    apply List.monotone_filter_right
    intro t ht
    rw [decide_eq_true_eq] at ht ⊢
    exact lt_of_lt_of_le ht h
  exact Nat.add_le_add_left hsub.length_le 1

/-! ### Claim theorems: the classifier -/

/-- C1: for every finite dNBR value `v`, `classify_severity` assigns exactly
one class, the one given by the seven-row table (left-open/right-closed
intervals, inclusive upper bounds); in particular `-0.251 ↦ 1`,
`0.100 ↦ 3` and `0.660 ↦ 6`. -/
theorem classify_follows_seven_row_table (v : ℚ) :
    classify_severity_pixel (some v) = severityTableSpec v ∧
    (severityConditions (some v)).count true = 1 ∧
    classify_severity_pixel (some (-251/1000)) = 1 ∧
    classify_severity_pixel (some (100/1000)) = 3 ∧
    classify_severity_pixel (some (660/1000)) = 6 :=
  ⟨classify_eq_table v, severityConditions_count_one v,
    by rw [classify_eq_table]; norm_num [severityTableSpec],
    by rw [classify_eq_table]; norm_num [severityTableSpec],
    by rw [classify_eq_table]; norm_num [severityTableSpec]⟩

/-- C10: the per-pixel classification is monotone on finite inputs, and the
seven condition intervals partition the finite rationals: each finite value
satisfies exactly one of the seven conditions. -/
theorem classify_monotone_and_partition (v1 v2 : ℚ) :
    (v1 ≤ v2 →
      classify_severity_pixel (some v1) ≤ classify_severity_pixel (some v2)) ∧
    (severityConditions (some v1)).count true = 1 := by
  refine ⟨fun h => ?_, severityConditions_count_one v1⟩
  rw [classify_eq_table, classify_eq_table]
  exact severityTableSpec_mono h

/-- C10 witness at `v1 = -1 ≤ 1 = v2`. -/
theorem classify_monotone_and_partition_witness :
    classify_severity_pixel (some (-1 : ℚ)) ≤ classify_severity_pixel (some (1 : ℚ)) ∧
    (severityConditions (some (-1 : ℚ))).count true = 1 :=
  ⟨(classify_monotone_and_partition (-1) 1).1 (by norm_num),
    (classify_monotone_and_partition (-1) 1).2⟩

/-- C7: a pixel matching no condition (reachable only for NaN, i.e. `none`)
gets class 0; every classified pixel lies in `{0, …, 7}` (hence fits in a
uint8); the classified output keeps the shape of the input and its profile
keeps the input's geotransform and CRS, with dtype set to uint8. -/
theorem classified_raster_range_shape_profile
    (a : List (List (Option ℚ))) (p : Profile) :
    shape2 (classify_severity_raster a p).1 = shape2 a ∧
    (classify_severity_raster a p).2.transform = p.transform ∧
    (classify_severity_raster a p).2.crs = p.crs ∧
    (classify_severity_raster a p).2.dtype = "uint8" ∧
    classify_severity_pixel none = 0 ∧
    ((classify_severity_raster a p).1.flatten.all fun v => decide (v ≤ 7)) = true := by
  refine ⟨?_, rfl, rfl, rfl, by decide, ?_⟩
  · simp [classify_severity_raster, shape2, List.map_map, Function.comp_def]
  · rw [List.all_eq_true]
    intro x hx
    rw [List.mem_flatten] at hx
    obtain ⟨s, hs, hxs⟩ := hx
    simp only [classify_severity_raster] at hs
    rw [List.mem_map] at hs
    obtain ⟨row, _, rfl⟩ := hs
    rw [List.mem_map] at hxs
    obtain ⟨y, _, rfl⟩ := hxs
    exact decide_eq_true (classify_pixel_le_seven y)

/-! ### Claim theorems: `calculate_dnbr` -/

/-- C2: in `calculate_dnbr`, each no-data/NaN pixel is replaced by 0.0
independently in the pre and post arrays before subtraction, so each output
pixel is `pre - post` of the substituted values; a no-data pixel paired
with a valid one yields the valid pixel's raw value (valid pre) or its
negation (valid post). -/
theorem dnbr_nan_substitution_before_subtraction
    (pre post : List (List (Option ℚ))) (out : List (List ℚ)) (i j : ℕ)
    (p q : Option ℚ) (hok : calculate_dnbr pre post = Except.ok out)
    (hp : get2 pre i j = some p) (hq : get2 post i j = some q) :
    get2 out i j = some (nan_to_num p - nan_to_num q) ∧
    (∀ x, p = some x → q = none → get2 out i j = some x) ∧
    (∀ y, p = none → q = some y → get2 out i j = some (-y)) := by
  have hmain : get2 out i j = some (nan_to_num p - nan_to_num q) := by
    rw [calculate_dnbr_ok_eq pre post out hok]
    exact get2_zipWith _ pre post i j p q hp hq
  refine ⟨hmain, ?_, ?_⟩
  · rintro x rfl rfl
    simpa [nan_to_num] using hmain
  · rintro y rfl rfl
    simpa [nan_to_num] using hmain

/-- C2 witness: a 1×2 raster pair with one no-data pixel on each side. -/
theorem dnbr_nan_substitution_before_subtraction_witness :
    get2 [[(1 : ℚ), -2]] 0 0 = some (1 : ℚ) ∧
    get2 [[(1 : ℚ), -2]] 0 1 = some (-2 : ℚ) :=
  ⟨(dnbr_nan_substitution_before_subtraction
      [[some 1, none]] [[none, some 2]] [[1, -2]] 0 0 (some 1) none
      (by norm_num [calculate_dnbr, shape2, nan_to_num]) rfl rfl).2.1 1 rfl rfl,
   (dnbr_nan_substitution_before_subtraction
      [[some 1, none]] [[none, some 2]] [[1, -2]] 0 1 none (some 2)
      (by norm_num [calculate_dnbr, shape2, nan_to_num]) rfl rfl).2.2 2 rfl rfl⟩

/-- C3: on a width/height mismatch, `calculate_dnbr` raises the shape
mismatch error — an error constructor distinct from every I/O failure —
and returns no `.ok` payload, so no output is written. -/
theorem dnbr_shape_mismatch_aborts (pre post : List (List (Option ℚ)))
    (h : shape2 pre ≠ shape2 post) :
    calculate_dnbr pre post =
      Except.error (PipelineError.shapeMismatch "Image size mismatch.") ∧
    (∀ out, calculate_dnbr pre post ≠ Except.ok out) ∧
    (∀ m1 m2, PipelineError.shapeMismatch m1 ≠ PipelineError.ioFailure m2) := by
  have h1 : calculate_dnbr pre post =
      Except.error (PipelineError.shapeMismatch "Image size mismatch.") := by
    unfold calculate_dnbr
    rw [if_neg h]
  refine ⟨h1, ?_, ?_⟩
  · intro out hok
    rw [h1] at hok
    exact Except.noConfusion hok
  · intro m1 m2 hcon
    exact PipelineError.noConfusion hcon

/-- C3 witness: the spec's Scenario 3, a 100×100 pre raster against a
50×50 post raster. -/
theorem dnbr_shape_mismatch_aborts_witness :
    calculate_dnbr (List.replicate 100 (List.replicate 100 (some (1 : ℚ))))
        (List.replicate 50 (List.replicate 50 (some (1 : ℚ)))) =
      Except.error (PipelineError.shapeMismatch "Image size mismatch.") :=
  (dnbr_shape_mismatch_aborts _ _ (by
    intro hcon
    have hlen := congrArg List.length hcon
    simp [shape2] at hlen)).1

/-- C8: if every pixel of both inputs is no-data, the dNBR output is
exactly 0.0 everywhere. -/
theorem dnbr_all_nodata_gives_zero (pre post : List (List (Option ℚ)))
    (hsh : shape2 pre = shape2 post)
    (h1 : ∀ r ∈ pre, ∀ x ∈ r, x = none)
    (h2 : ∀ r ∈ post, ∀ x ∈ r, x = none) :
    ∃ out, calculate_dnbr pre post = Except.ok out ∧
      ∀ r ∈ out, ∀ x ∈ r, x = (0 : ℚ) := by
  refine ⟨_, by unfold calculate_dnbr; rw [if_pos hsh], ?_⟩
  intro r hr x hx
  obtain ⟨rp, hrp, rs, hrs, rfl⟩ := mem_zipWith pre post r hr
  obtain ⟨a, ha, b, hb, rfl⟩ := mem_zipWith rp rs x hx
  rw [h1 rp hrp a ha, h2 rs hrs b hb]
  simp [nan_to_num]

/-- C8 witness: a 1×1 all-no-data pair. -/
theorem dnbr_all_nodata_gives_zero_witness :
    ∃ out, calculate_dnbr [[none]] [[none]] = Except.ok out ∧
      ∀ r ∈ out, ∀ x ∈ r, x = (0 : ℚ) :=
  dnbr_all_nodata_gives_zero [[none]] [[none]] rfl (by decide) (by decide)

/-! ### Helper lemmas: `calculate_area` -/

theorem keptClasses_eq (a : List (List ℕ)) :
    keptClasses a =
      ([1, 2, 3, 4, 5, 6, 7] : List ℕ).filter fun v => decide (0 < countClass a v) := by
  have h7 : ([1, 2, 3, 4, 5, 6, 7] : List ℕ) =
      (List.range 256).filter fun v => (List.lookup v class_labels).isSome := by decide
  rw [h7]
  unfold keptClasses uniqueValues
  rw [List.filter_filter, List.filter_filter]
  exact List.filter_congr fun x _ => Bool.and_comm _ _

theorem keptClasses_length_le (a : List (List ℕ)) :
    (keptClasses a).length ≤ 7 := by
  rw [keptClasses_eq]
  exact List.length_filter_le _ _

theorem abs_roundHalfEven_sub (x : ℚ) : |(roundHalfEven x : ℚ) - x| ≤ 1/2 := by
  unfold roundHalfEven
  split_ifs with h1 h2
  · have hfl : (⌊x⌋ : ℚ) = x - 1/2 := by linarith
    rw [hfl]
    rw [show x - 1/2 - x = -(1/2) by ring, abs_neg,
      abs_of_pos (by norm_num : (0 : ℚ) < 1/2)]
  · have hfl : (⌊x⌋ : ℚ) = x - 1/2 := by linarith
    push_cast
    rw [hfl]
    rw [show x - 1/2 + 1 - x = 1/2 by ring,
      abs_of_pos (by norm_num : (0 : ℚ) < 1/2)]
  · rw [abs_sub_comm]
    exact abs_sub_round x

theorem abs_pyRound2_sub (x : ℚ) : |pyRound2 x - x| ≤ 1/200 := by
  unfold pyRound2
  have h := abs_roundHalfEven_sub (x * 100)
  rw [show (roundHalfEven (x * 100) : ℚ) / 100 - x =
    ((roundHalfEven (x * 100) : ℚ) - x * 100) / 100 by ring]
  rw [abs_div, show |(100 : ℚ)| = 100 by norm_num]
  linarith

theorem abs_sum_pyRound2_sub (l : List ℕ) (f : ℕ → ℚ) :
    |(l.map fun v => pyRound2 (f v)).sum - (l.map f).sum| ≤ l.length * (1/200) := by
  induction l with
  | nil => simp
  | cons a t ih =>
    simp only [List.map_cons, List.sum_cons, List.length_cons]
    rw [show pyRound2 (f a) + (t.map fun v => pyRound2 (f v)).sum - (f a + (t.map f).sum)
      = (pyRound2 (f a) - f a) + ((t.map fun v => pyRound2 (f v)).sum - (t.map f).sum)
      by ring]
    have htri := abs_add (pyRound2 (f a) - f a)
      ((t.map fun v => pyRound2 (f v)).sum - (t.map f).sum)
    have hhd := abs_pyRound2_sub (f a)
    push_cast
    linarith

theorem sum_map_div (l : List ℕ) (g : ℕ → ℚ) (c : ℚ) :
    (l.map g).sum / c = (l.map fun v => g v / c).sum := by
  induction l with
  | nil => simp
  | cons a t ih => simp [List.sum_cons, add_div, ih]

theorem sum_map_filter_eq (l : List ℕ) (P : ℕ → Bool) (f : ℕ → ℚ)
    (h0 : ∀ v ∈ l, P v = false → f v = 0) :
    ((l.filter P).map f).sum = (l.map f).sum := by
  induction l with
  | nil => rfl
  | cons a t ih =>
    by_cases hP : P a = true
    · rw [List.filter_cons_of_pos hP]
      simp only [List.map_cons, List.sum_cons]
      rw [ih fun v hv => h0 v (List.mem_cons_of_mem _ hv)]
    · rw [List.filter_cons_of_neg hP]
      simp only [List.map_cons, List.sum_cons]
      rw [h0 a (List.mem_cons_self a t) (Bool.eq_false_iff.mpr hP), zero_add,
        ih fun v hv => h0 v (List.mem_cons_of_mem _ hv)]

theorem lookup_map_of_inj (l : List ℕ) (f : ℕ → String) (g : ℕ → ClassArea)
    (c : ℕ) (hc : c ∈ l) (hinj : ∀ x ∈ l, f x = f c → x = c) :
    List.lookup (f c) (l.map fun v => (f v, g v)) = some (g c) := by
  induction l with
  | nil => exact absurd hc (List.not_mem_nil c)
  | cons a t ih =>
    simp only [List.map_cons, List.lookup]
    cases hfa : f c == f a with
    | true =>
      have hac : a = c := hinj a (List.mem_cons_self a t) (eq_of_beq hfa).symm
      subst hac
      rfl
    | false =>
      have hct : c ∈ t := by
        rcases List.mem_cons.mp hc with rfl | h
        · rw [beq_self_eq_true] at hfa
          exact Bool.noConfusion hfa
        · exact h
      exact ih hct fun x hx => hinj x (List.mem_cons_of_mem _ hx)

/-! ### Claim theorems: `calculate_area` -/

/-- C5: each per-class area is the count of that class in the original
(unprojected) array times the single per-pixel area `ta * |te|` of the
reprojected grid, divided by 10000 (m² to hectares) and rounded to two
decimals; the report entry is found under that class's label. -/
theorem area_entry_from_count_and_pixel_area (a : List (List ℕ)) (ta te : ℚ)
    (c : ℕ) (h1 : 1 ≤ c) (h2 : c ≤ 7) (h3 : 0 < countClass a c) :
    List.lookup ((List.lookup c class_labels).getD "")
        (calculate_area a ta te).entries =
      some ⟨c, pyRound2 ((countClass a c : ℚ) * (ta * |te|) / 10000)⟩ := by
  have hmem : c ∈ keptClasses a := by
    rw [keptClasses_eq]
    refine List.mem_filter.mpr ⟨?_, decide_eq_true h3⟩
    interval_cases c <;> decide
  have hinj : ∀ x ∈ keptClasses a,
      (List.lookup x class_labels).getD "" = (List.lookup c class_labels).getD "" →
      x = c := by
    have hlab : ∀ x ∈ ([1, 2, 3, 4, 5, 6, 7] : List ℕ),
        ∀ y ∈ ([1, 2, 3, 4, 5, 6, 7] : List ℕ),
        (List.lookup x class_labels).getD "" = (List.lookup y class_labels).getD "" →
        x = y := by decide
    intro x hx hfx
    have hx7 : x ∈ ([1, 2, 3, 4, 5, 6, 7] : List ℕ) :=
      List.mem_of_mem_filter (keptClasses_eq a ▸ hx)
    have hc7 : c ∈ ([1, 2, 3, 4, 5, 6, 7] : List ℕ) := by
      interval_cases c <;> decide
    exact hlab x hx7 c hc7 hfx
  exact lookup_map_of_inj (keptClasses a)
    (fun v => (List.lookup v class_labels).getD "")
    (fun v => ⟨v, pyRound2 ((countClass a v : ℚ) * (ta * |te|) / 10000)⟩)
    c hmem hinj

/-- C5 witness: a 1×1 array of class 3 with a 10 m × 10 m reprojected
pixel. -/
theorem area_entry_from_count_and_pixel_area_witness :
    List.lookup ((List.lookup 3 class_labels).getD "")
        (calculate_area [[3]] 10 (-10)).entries =
      some ⟨3, pyRound2 ((countClass [[3]] 3 : ℚ) * (10 * |(-10 : ℚ)|) / 10000)⟩ :=
  area_entry_from_count_and_pixel_area [[3]] 10 (-10) 3
    (by norm_num) (by norm_num) (by decide)

/-- C9: every entry of the report is for a class value in 1..7 that occurs
in the array (class 0 produces no entry), and the total is the rounded sum
over classes 1..7 only, so class-0 pixels contribute nothing to it. -/
theorem area_total_counts_only_labeled_classes (a : List (List ℕ)) (ta te : ℚ) :
    ((calculate_area a ta te).entries.all fun e =>
        decide (1 ≤ e.2.class_id) && decide (e.2.class_id ≤ 7) &&
        decide (0 < countClass a e.2.class_id)) = true ∧
    (calculate_area a ta te).total_area_hectares =
      pyRound2 ((([1, 2, 3, 4, 5, 6, 7] : List ℕ).map fun c =>
        (countClass a c : ℚ) * (ta * |te|)).sum / 10000) := by
  constructor
  · rw [List.all_eq_true]
    intro e he
    simp only [calculate_area, List.mem_map] at he
    obtain ⟨v, hv, rfl⟩ := he
    rw [keptClasses_eq] at hv
    rw [List.mem_filter] at hv
    obtain ⟨hv7, hvpos⟩ := hv
    have hvb : 1 ≤ v ∧ v ≤ 7 := by
      simp only [List.mem_cons, List.not_mem_nil, or_false] at hv7
      rcases hv7 with rfl | rfl | rfl | rfl | rfl | rfl | rfl <;> omega
    rw [Bool.and_eq_true, Bool.and_eq_true, decide_eq_true_eq, decide_eq_true_eq,
      decide_eq_true_eq]
    exact ⟨⟨hvb.1, hvb.2⟩, of_decide_eq_true hvpos⟩
  · simp only [calculate_area]
    rw [keptClasses_eq]
    rw [sum_map_filter_eq _ _ _ fun v _ hP => by
      have h0 : countClass a v = 0 := by
        have := of_decide_eq_false hP
        omega
      rw [h0]
      push_cast
      ring]

/-- C4 counterexample: seven classes, one pixel each, 150 m² per pixel.
Every per-class figure 0.015 ha rounds up to 0.02 ha, their sum is 0.14 ha,
but the total 0.105 ha rounds (half-to-even) to 0.10 ha: the gap is 0.04,
above the claimed 0.01 tolerance. -/
theorem area_sum_total_within_001_fails :
    ¬ (|sumEntryAreas (calculate_area [[1, 2, 3, 4, 5, 6, 7]] 150 1) -
        (calculate_area [[1, 2, 3, 4, 5, 6, 7]] 150 1).total_area_hectares| ≤
          1/100) := by
  have hk : keptClasses [[1, 2, 3, 4, 5, 6, 7]] = [1, 2, 3, 4, 5, 6, 7] := by decide
  have hc1 : countClass [[1, 2, 3, 4, 5, 6, 7]] 1 = 1 := by decide
  have hc2 : countClass [[1, 2, 3, 4, 5, 6, 7]] 2 = 1 := by decide
  have hc3 : countClass [[1, 2, 3, 4, 5, 6, 7]] 3 = 1 := by decide
  have hc4 : countClass [[1, 2, 3, 4, 5, 6, 7]] 4 = 1 := by decide
  have hc5 : countClass [[1, 2, 3, 4, 5, 6, 7]] 5 = 1 := by decide
  have hc6 : countClass [[1, 2, 3, 4, 5, 6, 7]] 6 = 1 := by decide
  have hc7 : countClass [[1, 2, 3, 4, 5, 6, 7]] 7 = 1 := by decide
  have hval : pyRound2 ((1 : ℚ) * (150 * |(1 : ℚ)|) / 10000) = 2/100 := by
    norm_num [pyRound2, roundHalfEven]
  have htot : pyRound2 (((1 : ℚ) * (150 * |(1 : ℚ)|) + ((1 : ℚ) * (150 * |(1 : ℚ)|) +
      ((1 : ℚ) * (150 * |(1 : ℚ)|) + ((1 : ℚ) * (150 * |(1 : ℚ)|) +
      ((1 : ℚ) * (150 * |(1 : ℚ)|) + ((1 : ℚ) * (150 * |(1 : ℚ)|) +
      ((1 : ℚ) * (150 * |(1 : ℚ)|) + 0))))))) / 10000) = 10/100 := by
    norm_num [pyRound2, roundHalfEven]
  simp only [sumEntryAreas, calculate_area, hk, List.map_cons, List.map_nil,
    List.sum_cons, List.sum_nil, hc1, hc2, hc3, hc4, hc5, hc6, hc7, Nat.cast_one,
    hval, htot]
  norm_num [abs_le]

/-- C4 amended: the sum of the per-class `area_hectares` values equals the
`Total_Analyzed_Area` figure within 0.04 hectare (at most seven per-class
roundings of ≤ 0.005 plus one rounding of the total), not within 0.01. -/
theorem area_sum_total_within_004 (a : List (List ℕ)) (ta te : ℚ) :
    |sumEntryAreas (calculate_area a ta te) -
      (calculate_area a ta te).total_area_hectares| ≤ 1/25 := by
  simp only [sumEntryAreas, calculate_area, List.map_map, Function.comp_def]
  rw [sum_map_div]
  have h1 := abs_sum_pyRound2_sub (keptClasses a)
    (fun v => (countClass a v : ℚ) * (ta * |te|) / 10000)
  have h2 := abs_pyRound2_sub
    (((keptClasses a).map fun v => (countClass a v : ℚ) * (ta * |te|) / 10000).sum)
  have hlen : ((keptClasses a).length : ℚ) ≤ 7 := by
    exact_mod_cast keptClasses_length_le a
  have htri := abs_sub_le
    (((keptClasses a).map fun v =>
      pyRound2 ((countClass a v : ℚ) * (ta * |te|) / 10000)).sum)
    (((keptClasses a).map fun v => (countClass a v : ℚ) * (ta * |te|) / 10000).sum)
    (pyRound2 (((keptClasses a).map fun v =>
      (countClass a v : ℚ) * (ta * |te|) / 10000).sum))
  rw [abs_sub_comm] at h2
  nlinarith [h1, h2, htri, hlen]

/-- C6 counterexample: on an all-class-3 raster the report does not
"report 0" under the other class labels — those labels are simply absent:
there is no ("Low-Severity Burn", 0-hectare) entry, and looking the label
up finds nothing. -/
theorem area_all_unburned_other_labels_absent :
    ("Low-Severity Burn", (⟨4, 0⟩ : ClassArea)) ∉
        (calculate_area [[3, 3], [3, 3]] 10 (-10)).entries ∧
    List.lookup "Low-Severity Burn"
        (calculate_area [[3, 3], [3, 3]] 10 (-10)).entries = none := by
  have hk : keptClasses [[3, 3], [3, 3]] = [3] := by decide
  constructor
  · simp only [calculate_area, hk, List.map_cons, List.map_nil,
      List.mem_singleton]
    intro hcon
    exact absurd (congrArg Prod.fst hcon) (by decide)
  · simp only [calculate_area, hk, List.map_cons, List.map_nil]
    rfl

/-- C6 amended: when the classified raster is entirely class 3, the report
attributes the whole analyzed area to "Unburned" (that entry equals the
total) and contains no entry at all for any other class label — absent
labels are omitted rather than reported with a 0 figure. -/
theorem area_all_unburned_report (a : List (List ℕ)) (ta te : ℚ)
    (hall : ∀ r ∈ a, ∀ x ∈ r, x = 3) (h3 : 0 < countClass a 3) :
    (calculate_area a ta te).entries =
      [("Unburned", ⟨3, pyRound2 ((countClass a 3 : ℚ) * (ta * |te|) / 10000)⟩)] ∧
    (calculate_area a ta te).total_area_hectares =
      pyRound2 ((countClass a 3 : ℚ) * (ta * |te|) / 10000) ∧
    ∀ lbl, lbl ≠ "Unburned" →
      List.lookup lbl (calculate_area a ta te).entries = none := by
  have hc0 : ∀ c, c ≠ 3 → countClass a c = 0 := by
    intro c hc
    rw [countClass, List.count_eq_zero]
    intro hmem
    rw [List.mem_flatten] at hmem
    obtain ⟨r, hr, hcr⟩ := hmem
    exact hc (hall r hr c hcr)
  have hk : keptClasses a = [3] := by
    rw [keptClasses_eq]
    simp [List.filter, hc0 1 (by omega), hc0 2 (by omega), hc0 4 (by omega),
      hc0 5 (by omega), hc0 6 (by omega), hc0 7 (by omega), h3]
  refine ⟨?_, ?_, ?_⟩
  · simp only [calculate_area, hk, List.map_cons, List.map_nil]
    rfl
  · simp only [calculate_area, hk, List.map_cons, List.map_nil, List.sum_cons,
      List.sum_nil]
    rw [add_zero]
  · intro lbl hlbl
    simp only [calculate_area, hk, List.map_cons, List.map_nil]
    have hbeq : (lbl == "Unburned") = false := beq_eq_false_iff_ne.mpr hlbl
    simp [List.lookup, hbeq]

/-- C6 witness: a 2×2 all-class-3 raster with 10 m × 10 m reprojected
pixels. -/
theorem area_all_unburned_report_witness :
    (calculate_area [[3, 3], [3, 3]] 10 (-10)).entries =
      [("Unburned", ⟨3, pyRound2 ((countClass [[3, 3], [3, 3]] 3 : ℚ) *
        ((10 : ℚ) * |(-10 : ℚ)|) / 10000)⟩)] ∧
    (calculate_area [[3, 3], [3, 3]] 10 (-10)).total_area_hectares =
      pyRound2 ((countClass [[3, 3], [3, 3]] 3 : ℚ) *
        ((10 : ℚ) * |(-10 : ℚ)|) / 10000) ∧
    List.lookup "Extreme-Severity Burn"
        (calculate_area [[3, 3], [3, 3]] 10 (-10)).entries = none := by
  have h := area_all_unburned_report [[3, 3], [3, 3]] 10 (-10)
    (by decide) (by decide)
  exact ⟨h.1, h.2.1, h.2.2 "Extreme-Severity Burn" (by decide)⟩

end BurnClassifier
